import Mathlib

/-!
# A shallow embedding of the veraison corim-store relational layer

This development embeds, in Lean, the parts of the corim-store Go
repository that its behavioural specification talks about: the relational
row model of manifests / module tags / triples / environments, the
deduplicating environment insert, the store facade (`AddBytes`,
`AddManifest`, `GetManifest`, `DeleteManifest`, the triple-retrieval
queries) and the activation commands of the CLI.

Modelling conventions:

* Go byte slices become `List Nat`; SQL `NULL`-able columns become
  `Option`; auto-increment tables become a row list plus a monotone
  counter (`Table`).  Timestamps and float-valued extension columns are
  outside the claims checked here and are not carried.
* Each Go `Insert`/`Select`/`Delete` method is a pure function on the
  table state; operations that run inside one SQL transaction are
  composed in the `Except` monad so that an error makes the caller keep
  the pre-transaction state (the rollback).
* The bun ORM returns `sql.ErrNoRows` only when scanning a single row
  into a struct; scanning into a slice just yields an empty slice, as
  exercised by the repository's own store tests (for example
  `TestStore_Manifest_CRUD` asserting `NoError` on queries whose result
  set is necessarily empty).  The embedding encodes that: multi-row
  scans are total, single-row lookups return `Option`.
* A bun relation tag `polymorphic:X` loads children whose `owner_type`
  column equals `"X"`; a bare `polymorphic` uses the owning table's
  singular name (here `"entity"`), as exercised by the entity round-trip
  test of the repository.
* Inserts model freshly converted (unsaved) objects: every inserted row
  receives the table's next key.  The embedding's key counter is
  monotone, so no conclusion below rests on SQLite's reuse of freed top
  row ids.
* The `is_active` column of both triple tables is carried on the row:
  the lifecycle commands update it, `ModuleTag.SetActive` and the list
  command read and write the triples' `IsActive` field, and the
  retrieval queries filter on it.
-/

namespace CorimStore

/-- Error outcomes surfaced by the store, named after the error kinds of
the source (`ErrNoLabel`, `ErrNoMatch`, `ErrNoEnvMatch`, the
already-in-store errors of `AddManifest`, the ingest gating errors of
`AddBytes`, `manifest not found`, `ID not set` and validation errors). -/
inductive StoreErr where
  | noLabel
  | noMatch
  | noEnvMatch
  | alreadyInStore
  | alreadyInStoreDigestsMatch
  | alreadyInStoreDigestsDiffer
  | tooShort
  | signedNotSupported
  | unrecognizedFormat
  | manifestNotFound (id : String)
  | idNotSet
  | noRows
  | validation (msg : String)
  deriving DecidableEq, Repr

instance {ε α : Type} [DecidableEq ε] [DecidableEq α] :
    DecidableEq (Except ε α) := fun a b =>
  match a, b with
  | .ok x, .ok y =>
    if h : x = y then .isTrue (by rw [h])
    else .isFalse (fun hh => h (Except.ok.inj hh))
  | .ok x, .error y => .isFalse (fun hh => Except.noConfusion hh)
  | .error x, .ok y => .isFalse (fun hh => Except.noConfusion hh)
  | .error x, .error y =>
    if h : x = y then .isTrue (by rw [h])
    else .isFalse (fun hh => h (Except.error.inj hh))

/-- An auto-increment SQL table: the rows in insertion order together
with the next primary key to hand out.  Fresh keys start at 1, matching
SQLite row ids, and the counter only grows. -/
structure Table (α : Type) where
  rows : List α
  next : Int
  deriving DecidableEq, Repr

def Table.empty {α : Type} : Table α := ⟨[], 1⟩

/-- INSERT of one row: the row receives the next primary key. -/
def Table.insertRow {α : Type} (t : Table α) (mk : Int → α) : Table α × Int :=
  (⟨t.rows ++ [mk t.next], t.next + 1⟩, t.next)

/-- DELETE ... WHERE id = ?, with the id extracted by `getId`. -/
def Table.deleteByID {α : Type} (t : Table α) (getId : α → Int) (id : Int) : Table α :=
  ⟨t.rows.filter (fun r => getId r ≠ id), t.next⟩

/-! ## Environments (`pkg/model/environment.go`) -/

/-- The data columns of the `environments` table; every column is
nullable.  `Class` is collapsed into the environment as in the source. -/
structure EnvFields where
  classType : Option String := none
  classBytes : Option (List Nat) := none
  vendor : Option String := none
  model : Option String := none
  layer : Option Nat := none
  index : Option Nat := none
  instanceType : Option String := none
  instanceBytes : Option (List Nat) := none
  groupType : Option String := none
  groupBytes : Option (List Nat) := none
  deriving DecidableEq, Repr

/-- One row of the `environments` table. -/
structure EnvRow where
  id : Int
  f : EnvFields
  deriving DecidableEq, Repr

/-- The `Environment.IsEmpty`: no column is set. -/
def EnvFields.isEmpty (e : EnvFields) : Bool :=
  e.classType.isNone && e.classBytes.isNone && e.vendor.isNone &&
  e.model.isNone && e.layer.isNone && e.index.isNone &&
  e.instanceType.isNone && e.instanceBytes.isNone &&
  e.groupType.isNone && e.groupBytes.isNone

/-- The `Environment.Validate`: each of class / instance / group has its
type and bytes columns set together. -/
def envValidate (e : EnvFields) : Except StoreErr Unit :=
  if e.classType.isSome ≠ e.classBytes.isSome then
    .error (.validation "ClassType and ClassBytes must be set together")
  else if e.instanceType.isSome ≠ e.instanceBytes.isSome then
    .error (.validation "InstanceType and InstanceBytes must be set together")
  else if e.groupType.isSome ≠ e.groupBytes.isSome then
    .error (.validation "GroupType and GroupBytes must be set together")
  else
    .ok ()

/-- One conjunct of `UpdateSelectQueryFromEnvironment`: a probe column
that is set must match the row bit for bit; an unset probe column
matches only `NULL` when `exact`, and anything otherwise. -/
def colMatches {α : Type} [DecidableEq α]
    (probe : Option α) (exact : Bool) (row : Option α) : Bool :=
  match probe with
  | some v => row = some v
  | none => if exact then row.isNone else true

/-- The WHERE clause built by `UpdateSelectQueryFromEnvironment`,
evaluated on one `environments` row. -/
def envMatches (probe : EnvFields) (exact : Bool) (row : EnvRow) : Bool :=
  colMatches probe.classType exact row.f.classType &&
  colMatches probe.classBytes exact row.f.classBytes &&
  colMatches probe.instanceType exact row.f.instanceType &&
  colMatches probe.instanceBytes exact row.f.instanceBytes &&
  colMatches probe.groupType exact row.f.groupType &&
  colMatches probe.groupBytes exact row.f.groupBytes &&
  colMatches probe.vendor exact row.f.vendor &&
  colMatches probe.model exact row.f.model &&
  colMatches probe.layer exact row.f.layer &&
  colMatches probe.index exact row.f.index

/-- The `Environment.Insert`: validate, look the candidate up with
`exact = true` semantics, adopt the id of the first hit, and only
insert a fresh row on a miss. -/
def envInsert (t : Table EnvRow) (e : EnvFields) :
    Except StoreErr (Table EnvRow × Int) := do
  envValidate e
  match t.rows.find? (fun r => envMatches e true r) with
  | some r => .ok (t, r.id)
  | none => .ok (t.insertRow (fun id => ⟨id, e⟩))

/-- The ids selected by `Store.FindEnvironmentIDs` before its emptiness
check: all environment rows satisfying the probe's WHERE clause. -/
def matchEnvIDs (t : Table EnvRow) (probe : EnvFields) (exact : Bool) : List Int :=
  (t.rows.filter (envMatches probe exact)).map (·.id)

/-- The `Store.FindEnvironmentIDs`: the matching ids, or `ErrNoEnvMatch`
when none match. -/
def findEnvironmentIDs (t : Table EnvRow) (probe : EnvFields) (exact : Bool) :
    Except StoreErr (List Int) :=
  match matchEnvIDs t probe exact with
  | [] => .error .noEnvMatch
  | ids => .ok ids

/-- Well-formed `environments` table: every row id is positive and below
the counter, and no two rows share an id.  `Environment.Insert`
establishes and preserves this. -/
def envTableWF (t : Table EnvRow) : Prop :=
  1 ≤ t.next ∧ (∀ r ∈ t.rows, 0 < r.id ∧ r.id < t.next) ∧
    (t.rows.map (·.id)).Nodup

/-! ## Rows of the remaining tables (`pkg/migrations/0000_initial.go`
and the model files).  Only the timestamp and float columns are left
out; every column the checked claims touch is carried. -/

/-- One row of `manifests`. -/
structure ManifestRow where
  id : Int
  manifestIDType : String
  manifestID : String
  digest : List Nat
  label : String
  profileType : Option String := none
  profile : Option String := none
  notBefore : Option Int := none
  notAfter : Option Int := none
  deriving DecidableEq, Repr

/-- One row of `module_tags`. -/
structure ModuleTagRow where
  id : Int
  tagIDType : String
  tagID : String
  tagVersion : Int
  language : Option String := none
  manifestId : Int
  deriving DecidableEq, Repr

/-- One row of `value_triples`. -/
structure ValueTripleRow where
  id : Int
  environmentId : Int
  typ : String
  isActive : Bool
  moduleId : Int
  deriving DecidableEq, Repr

/-- One row of `key_triples`. -/
structure KeyTripleRow where
  id : Int
  environmentId : Int
  typ : String
  isActive : Bool
  moduleId : Int
  deriving DecidableEq, Repr

/-- One row of `measurements`. -/
structure MeasurementRow where
  id : Int
  keyType : Option String := none
  keyBytes : Option (List Nat) := none
  ownerId : Int
  ownerType : String
  deriving DecidableEq, Repr

/-- One row of `measurement_value_entries`. -/
structure MveRow where
  id : Int
  codePoint : Int
  valueType : String
  valueBytes : Option (List Nat) := none
  valueText : Option String := none
  valueInt : Option Int := none
  measurementId : Int
  deriving DecidableEq, Repr

/-- One row of `digests`. -/
structure DigestRow where
  id : Int
  algId : Int
  value : List Nat
  ownerId : Int
  ownerType : String
  deriving DecidableEq, Repr

/-- One row of `flags`. -/
structure FlagRow where
  id : Int
  codePoint : Int
  value : Bool
  measurementId : Int
  deriving DecidableEq, Repr

/-- One row of `integrity_registers`. -/
structure IntRegRow where
  id : Int
  indexUint : Option Int := none
  indexText : Option String := none
  measurementId : Int
  deriving DecidableEq, Repr

/-- One row of `cryptokeys`. -/
structure CryptoKeyRow where
  id : Int
  keyType : String
  keyBytes : List Nat
  ownerId : Int
  ownerType : String
  deriving DecidableEq, Repr

/-- One row of `entities`. -/
structure EntityRow where
  id : Int
  nameType : String
  name : String
  uri : String
  ownerId : Int
  ownerType : String
  deriving DecidableEq, Repr

/-- One row of `roles`. -/
structure RoleRow where
  id : Int
  role : String
  entityId : Int
  deriving DecidableEq, Repr

/-- One row of `linked_tags`. -/
structure LinkedTagRow where
  id : Int
  linkedTagIDType : String
  linkedTagID : String
  tagRelation : String
  moduleId : Int
  deriving DecidableEq, Repr

/-- One row of `locators`. -/
structure LocatorRow where
  id : Int
  href : String
  manifestId : Int
  deriving DecidableEq, Repr

/-- One row of `extensions`.  `fieldKind` carries Go's `reflect.Kind`
as a number; a cached raw-CBOR value is marked by an empty
`fieldName`. -/
structure ExtRow where
  id : Int
  fieldKind : Nat := 0
  fieldName : String
  jsonTag : String := ""
  cborTag : String := ""
  valueBytes : List Nat := []
  valueText : String := ""
  valueInt : Int := 0
  ownerId : Int
  ownerType : String
  deriving DecidableEq, Repr

/-- Every table except `manifests`: the tables that only child
`Insert`/`Select`/`Delete` methods touch. -/
structure Tables where
  environments : Table EnvRow := Table.empty
  moduleTags : Table ModuleTagRow := Table.empty
  valueTriples : Table ValueTripleRow := Table.empty
  keyTriples : Table KeyTripleRow := Table.empty
  measurements : Table MeasurementRow := Table.empty
  valueEntries : Table MveRow := Table.empty
  digests : Table DigestRow := Table.empty
  flags : Table FlagRow := Table.empty
  integrityRegisters : Table IntRegRow := Table.empty
  cryptoKeys : Table CryptoKeyRow := Table.empty
  entities : Table EntityRow := Table.empty
  roles : Table RoleRow := Table.empty
  linkedTags : Table LinkedTagRow := Table.empty
  locators : Table LocatorRow := Table.empty
  extensions : Table ExtRow := Table.empty
  deriving DecidableEq, Repr

/-- The whole store state. -/
structure DB where
  manifests : Table ManifestRow := Table.empty
  tabs : Tables := {}
  deriving DecidableEq, Repr

/-! ## In-memory model structures (the `pkg/model` structs).  As in the
source, database ids live inside the structures: zero for an unsaved
object, the row id after a select. -/

/-- The `model.CryptoKey`. -/
structure CryptoKeyM where
  id : Int := 0
  keyType : String
  keyBytes : List Nat
  deriving DecidableEq, Repr

/-- The `model.Digest`. -/
structure DigestM where
  id : Int := 0
  algId : Int
  value : List Nat
  deriving DecidableEq, Repr

/-- The `model.Flag`. -/
structure FlagM where
  id : Int := 0
  codePoint : Int
  value : Bool
  deriving DecidableEq, Repr

/-- The `model.MeasurementValueEntry`. -/
structure MveM where
  id : Int := 0
  codePoint : Int
  valueType : String
  valueBytes : Option (List Nat) := none
  valueText : Option String := none
  valueInt : Option Int := none
  deriving DecidableEq, Repr

/-- The `model.IntegrityRegister`. -/
structure IntRegM where
  id : Int := 0
  indexUint : Option Int := none
  indexText : Option String := none
  digests : List DigestM := []
  deriving DecidableEq, Repr

/-- The `model.ExtensionValue`. -/
structure ExtValM where
  id : Int := 0
  fieldKind : Nat := 0
  fieldName : String
  jsonTag : String := ""
  cborTag : String := ""
  valueBytes : List Nat := []
  valueText : String := ""
  valueInt : Int := 0
  deriving DecidableEq, Repr

/-- The `model.Measurement`. -/
structure MeasurementM where
  id : Int := 0
  keyType : Option String := none
  keyBytes : Option (List Nat) := none
  valueEntries : List MveM := []
  digests : List DigestM := []
  flags : List FlagM := []
  integrityRegisters : List IntRegM := []
  extensions : List ExtValM := []
  authorizedBy : List CryptoKeyM := []
  deriving DecidableEq, Repr

/-- The `model.ValueTriple`; the environment pointer becomes an optional
environment row. -/
structure ValueTripleM where
  id : Int := 0
  typ : String
  environment : Option EnvRow := none
  measurements : List MeasurementM := []
  isActive : Bool := false
  deriving DecidableEq, Repr

/-- The `model.KeyTriple`. -/
structure KeyTripleM where
  id : Int := 0
  typ : String
  environment : Option EnvRow := none
  keyList : List CryptoKeyM := []
  authorizedBy : List CryptoKeyM := []
  isActive : Bool := false
  deriving DecidableEq, Repr

/-- The `model.Entity` with its role entries inlined as role strings. -/
structure EntityM where
  id : Int := 0
  nameType : String := "string"
  name : String := ""
  uri : String := ""
  roleEntries : List String := []
  extensions : List ExtValM := []
  deriving DecidableEq, Repr

/-- The `model.LinkedTag`. -/
structure LinkedTagM where
  id : Int := 0
  linkedTagIDType : String
  linkedTagID : String
  tagRelation : String
  deriving DecidableEq, Repr

/-- The `model.Locator`. -/
structure LocatorM where
  id : Int := 0
  href : String
  thumbprint : List DigestM := []
  deriving DecidableEq, Repr

/-- The `model.ModuleTag`. -/
structure ModuleTagM where
  id : Int := 0
  tagIDType : String
  tagID : String
  tagVersion : Int := 0
  language : Option String := none
  entities : List EntityM := []
  valueTriples : List ValueTripleM := []
  keyTriples : List KeyTripleM := []
  linkedTags : List LinkedTagM := []
  extensions : List ExtValM := []
  triplesExtensions : List ExtValM := []
  deriving DecidableEq, Repr

/-- The `model.Manifest`. -/
structure ManifestM where
  id : Int := 0
  manifestIDType : String
  manifestID : String
  digest : List Nat := []
  label : String := ""
  profileType : Option String := none
  profile : Option String := none
  notBefore : Option Int := none
  notAfter : Option Int := none
  entities : List EntityM := []
  dependentRIMs : List LocatorM := []
  moduleTags : List ModuleTagM := []
  extensions : List ExtValM := []
  deriving DecidableEq, Repr

/-- The `Manifest.SetActive` / `ModuleTag.SetActive`: flip the in-memory
`is_active` flag of every key triple and value triple of every module
tag. -/
def ModuleTagM.setActive (mt : ModuleTagM) (value : Bool) : ModuleTagM :=
  { mt with
    keyTriples := mt.keyTriples.map (fun kt => { kt with isActive := value }),
    valueTriples := mt.valueTriples.map (fun vt => { vt with isActive := value }) }

def ManifestM.setActive (m : ManifestM) (value : Bool) : ManifestM :=
  { m with moduleTags := m.moduleTags.map (fun mt => mt.setActive value) }

/-- The store configuration fields that shape the behaviour checked
here (`pkg/store` `Config`). -/
structure Config where
  requireLabel : Bool := false
  insecure : Bool := false
  force : Bool := false
  deriving DecidableEq, Repr

/-! ## Validation (`Validate` methods of the model structs) -/

/-- The `Entity.Validate`. -/
def entityValidate (e : EntityM) : Except StoreErr Unit :=
  if e.roleEntries.isEmpty then .error (.validation "no roles") else .ok ()

/-- The `ValueTriple.Validate`. -/
def valueTripleValidate (vt : ValueTripleM) : Except StoreErr Unit := do
  if vt.typ = "" then
    throw (.validation "value triple type not set")
  match vt.environment with
  | none => throw (.validation "environment not set")
  | some env => envValidate env.f
  if vt.measurements.isEmpty then
    throw (.validation "no measurements")

/-- The `KeyTriple.Validate`. -/
def keyTripleValidate (kt : KeyTripleM) : Except StoreErr Unit := do
  if kt.typ = "" then
    throw (.validation "key triple type not set")
  match kt.environment with
  | none => throw (.validation "environment not set")
  | some env => envValidate env.f
  if kt.keyList.isEmpty then
    throw (.validation "empty key list")

/-- The `ModuleTag.Validate`. -/
def moduleTagValidate (mt : ModuleTagM) : Except StoreErr Unit := do
  if mt.tagIDType = "" || mt.tagID = "" then
    throw (.validation "tag ID not set (both type and value must be set)")
  if mt.tagIDType ≠ "string" && mt.tagIDType ≠ "uuid" then
    throw (.validation "unsupported tag ID type")
  if mt.valueTriples.isEmpty && mt.keyTriples.isEmpty then
    throw (.validation "no triples specified")
  mt.entities.forM entityValidate
  mt.valueTriples.forM valueTripleValidate
  mt.keyTriples.forM keyTripleValidate

/-- The `Manifest.Validate`. -/
def manifestValidate (m : ManifestM) : Except StoreErr Unit := do
  if m.manifestIDType = "" || m.manifestID = "" then
    throw (.validation "manifest ID not set (both type and value must be set)")
  if m.manifestIDType ≠ "string" && m.manifestIDType ≠ "uuid" then
    throw (.validation "unsupported manifest ID type")
  if m.moduleTags.isEmpty then
    throw (.validation "no module tags")
  m.moduleTags.forM moduleTagValidate
  if m.notAfter.isNone && m.notBefore.isSome then
    throw (.validation "not-before is set but not-after isn't")
  m.entities.forM entityValidate

/-! ## Inserts (the `Insert` methods; one SQL transaction overall) -/

/-- The `ExtensionValue.Insert` with the owner link the caller just set. -/
def extInsert (t : Tables) (x : ExtValM) (ownerId : Int) (ownerType : String) :
    Tables :=
  { t with extensions := (t.extensions.insertRow (fun id =>
      ⟨id, x.fieldKind, x.fieldName, x.jsonTag, x.cborTag,
        x.valueBytes, x.valueText, x.valueInt, ownerId, ownerType⟩)).1 }

/-- The `RoleEntry.Insert`. -/
def roleInsert (t : Tables) (role : String) (entityId : Int) : Tables :=
  { t with roles := (t.roles.insertRow (fun id => ⟨id, role, entityId⟩)).1 }

/-- The `Digest.Insert`. -/
def digestInsert (t : Tables) (d : DigestM) (ownerId : Int)
    (ownerType : String) : Tables :=
  { t with digests := (t.digests.insertRow (fun id =>
      ⟨id, d.algId, d.value, ownerId, ownerType⟩)).1 }

/-- The `Flag.Insert`. -/
def flagInsert (t : Tables) (f : FlagM) (measurementId : Int) : Tables :=
  { t with flags := (t.flags.insertRow (fun id =>
      ⟨id, f.codePoint, f.value, measurementId⟩)).1 }

/-- The `MeasurementValueEntry.Insert`. -/
def mveInsert (t : Tables) (e : MveM) (measurementId : Int) : Tables :=
  { t with valueEntries := (t.valueEntries.insertRow (fun id =>
      ⟨id, e.codePoint, e.valueType, e.valueBytes, e.valueText,
        e.valueInt, measurementId⟩)).1 }

/-- The `CryptoKey.Insert`. -/
def cryptoKeyInsert (t : Tables) (k : CryptoKeyM) (ownerId : Int)
    (ownerType : String) : Tables :=
  { t with cryptoKeys := (t.cryptoKeys.insertRow (fun id =>
      ⟨id, k.keyType, k.keyBytes, ownerId, ownerType⟩)).1 }

/-- The `LinkedTag.Insert`. -/
def linkedTagInsert (t : Tables) (l : LinkedTagM) (moduleId : Int) : Tables :=
  { t with linkedTags := (t.linkedTags.insertRow (fun id =>
      ⟨id, l.linkedTagIDType, l.linkedTagID, l.tagRelation, moduleId⟩)).1 }

/-- The `IntegrityRegister.Insert`: the register row, then its digests with
`owner_type = "integrity_register"`. -/
def intRegInsert (t : Tables) (r : IntRegM) (measurementId : Int) : Tables :=
  let p := t.integrityRegisters.insertRow (fun id =>
    ⟨id, r.indexUint, r.indexText, measurementId⟩)
  r.digests.foldl (fun t d => digestInsert t d p.2 "integrity_register")
    { t with integrityRegisters := p.1 }

/-- The `Measurement.Insert`: the measurement row, then value entries,
digests, flags, integrity registers, extensions and authorizing keys,
all owned through `owner_type = "measurement"` where polymorphic. -/
def measurementInsert (t : Tables) (m : MeasurementM) (ownerId : Int)
    (ownerType : String) : Tables :=
  let p := t.measurements.insertRow (fun id =>
    ⟨id, m.keyType, m.keyBytes, ownerId, ownerType⟩)
  let t := { t with measurements := p.1 }
  let t := m.valueEntries.foldl (fun t e => mveInsert t e p.2) t
  let t := m.digests.foldl (fun t d => digestInsert t d p.2 "measurement") t
  let t := m.flags.foldl (fun t f => flagInsert t f p.2) t
  let t := m.integrityRegisters.foldl (fun t r => intRegInsert t r p.2) t
  let t := m.extensions.foldl (fun t x => extInsert t x p.2 "measurement") t
  m.authorizedBy.foldl (fun t k => cryptoKeyInsert t k p.2 "measurement") t

/-- The `Entity.Insert` (no validation of its own): the entity row, its
role entries, and its extensions with `owner_type = "entity"`. -/
def entityInsert (t : Tables) (e : EntityM) (ownerId : Int)
    (ownerType : String) : Tables :=
  let p := t.entities.insertRow (fun id =>
    ⟨id, e.nameType, e.name, e.uri, ownerId, ownerType⟩)
  let t := { t with entities := p.1 }
  let t := e.roleEntries.foldl (fun t r => roleInsert t r p.2) t
  e.extensions.foldl (fun t x => extInsert t x p.2 "entity") t

/-- The `Locator.Insert`: the locator row and its thumbprint digests with
`owner_type = "locator"`. -/
def locatorInsert (t : Tables) (l : LocatorM) (manifestId : Int) : Tables :=
  let p := t.locators.insertRow (fun id => ⟨id, l.href, manifestId⟩)
  l.thumbprint.foldl (fun t d => digestInsert t d p.2 "locator")
    { t with locators := p.1 }

/-- The `ValueTriple.Insert`: validate, insert (or adopt) the environment,
insert the triple row, then the measurements with
`owner_type = "value_triple"`. -/
def valueTripleInsert (t : Tables) (vt : ValueTripleM) (moduleId : Int) :
    Except StoreErr Tables := do
  valueTripleValidate vt
  match vt.environment with
  | none => throw (.validation "environment not set")
  | some env => do
    let (envTbl, envId) ← envInsert t.environments env.f
    let t := { t with environments := envTbl }
    let p := t.valueTriples.insertRow (fun id =>
      ⟨id, envId, vt.typ, vt.isActive, moduleId⟩)
    let t := { t with valueTriples := p.1 }
    return vt.measurements.foldl
      (fun t m => measurementInsert t m p.2 "value_triple") t

/-- The `KeyTriple.Insert`: validate, insert (or adopt) the environment,
insert the triple row, then the verification keys
(`owner_type = "key_triple"`) and authorizing keys
(`owner_type = "key_triple_auth"`). -/
def keyTripleInsert (t : Tables) (kt : KeyTripleM) (moduleId : Int) :
    Except StoreErr Tables := do
  keyTripleValidate kt
  match kt.environment with
  | none => throw (.validation "environment not set")
  | some env => do
    let (envTbl, envId) ← envInsert t.environments env.f
    let t := { t with environments := envTbl }
    let p := t.keyTriples.insertRow (fun id =>
      ⟨id, envId, kt.typ, kt.isActive, moduleId⟩)
    let t := { t with keyTriples := p.1 }
    let t := kt.keyList.foldl
      (fun t k => cryptoKeyInsert t k p.2 "key_triple") t
    return kt.authorizedBy.foldl
      (fun t k => cryptoKeyInsert t k p.2 "key_triple_auth") t

/-- The `ModuleTag.Insert`: validate, the module-tag row, then entities
(`owner_type = "module_tag"`), linked tags, value triples, key triples,
tag-level extensions (`owner_type = "module_tag"`) and triples-level
extensions (`owner_type = "triples"`). -/
def moduleTagInsert (t : Tables) (mt : ModuleTagM) (manifestId : Int) :
    Except StoreErr Tables := do
  moduleTagValidate mt
  let p := t.moduleTags.insertRow (fun id =>
    ⟨id, mt.tagIDType, mt.tagID, mt.tagVersion, mt.language, manifestId⟩)
  let t := { t with moduleTags := p.1 }
  let t := mt.entities.foldl (fun t e => entityInsert t e p.2 "module_tag") t
  let t := mt.linkedTags.foldl (fun t l => linkedTagInsert t l p.2) t
  let t ← mt.valueTriples.foldlM (fun t vt => valueTripleInsert t vt p.2) t
  let t ← mt.keyTriples.foldlM (fun t kt => keyTripleInsert t kt p.2) t
  let t := mt.extensions.foldl (fun t x => extInsert t x p.2 "module_tag") t
  return mt.triplesExtensions.foldl (fun t x => extInsert t x p.2 "triples") t

/-- The child inserts of `Manifest.Insert`: entities
(`owner_type = "manifest"`), dependent-RIM locators, module tags, and
manifest-level extensions written with `owner_type = "manifest"`. -/
def manifestInsertChildren (t : Tables) (m : ManifestM) (mid : Int) :
    Except StoreErr Tables := do
  let t := m.entities.foldl (fun t e => entityInsert t e mid "manifest") t
  let t := m.dependentRIMs.foldl (fun t l => locatorInsert t l mid) t
  let t ← m.moduleTags.foldlM (fun t mt => moduleTagInsert t mt mid) t
  return m.extensions.foldl (fun t x => extInsert t x mid "manifest") t

/-- The `Manifest.Insert`: validate, the manifest row, then the children. -/
def manifestInsert (db : DB) (m : ManifestM) : Except StoreErr DB := do
  manifestValidate m
  let p := db.manifests.insertRow (fun id =>
    ⟨id, m.manifestIDType, m.manifestID, m.digest, m.label,
      m.profileType, m.profile, m.notBefore, m.notAfter⟩)
  let t ← manifestInsertChildren db.tabs m p.2
  return ⟨p.1, t⟩

/-! ## Selects (the `Select` methods: hydrating a row graph back into
the model structures).  bun loads a `has-many` relation by filtering on
the join columns; `belongs-to Environment` is a left join, so a missing
environment leaves the pointer nil rather than failing. -/

/-- Look an environment row up by id. -/
def envRowByID (t : Tables) (id : Int) : Option EnvRow :=
  t.environments.rows.find? (fun r => r.id = id)

/-- Load the `Digest` children of a polymorphic owner. -/
def digestsByOwner (t : Tables) (ownerId : Int) (ownerType : String) :
    List DigestM :=
  (t.digests.rows.filter (fun r =>
    r.ownerId = ownerId && r.ownerType = ownerType)).map
    (fun r => ⟨r.id, r.algId, r.value⟩)

/-- Load the `CryptoKey` children of a polymorphic owner. -/
def cryptoKeysByOwner (t : Tables) (ownerId : Int) (ownerType : String) :
    List CryptoKeyM :=
  (t.cryptoKeys.rows.filter (fun r =>
    r.ownerId = ownerId && r.ownerType = ownerType)).map
    (fun r => ⟨r.id, r.keyType, r.keyBytes⟩)

/-- Load the `ExtensionValue` children of a polymorphic owner. -/
def extsByOwner (t : Tables) (ownerId : Int) (ownerType : String) :
    List ExtValM :=
  (t.extensions.rows.filter (fun r =>
    r.ownerId = ownerId && r.ownerType = ownerType)).map
    (fun r => ⟨r.id, r.fieldKind, r.fieldName, r.jsonTag, r.cborTag,
      r.valueBytes, r.valueText, r.valueInt⟩)

/-- The `Measurement.Select`. -/
def measurementSelect (t : Tables) (row : MeasurementRow) : MeasurementM :=
  { id := row.id, keyType := row.keyType, keyBytes := row.keyBytes,
    valueEntries := (t.valueEntries.rows.filter
        (fun r => r.measurementId = row.id)).map
      (fun r => ⟨r.id, r.codePoint, r.valueType, r.valueBytes,
        r.valueText, r.valueInt⟩),
    digests := digestsByOwner t row.id "measurement",
    flags := (t.flags.rows.filter (fun r => r.measurementId = row.id)).map
      (fun r => ⟨r.id, r.codePoint, r.value⟩),
    integrityRegisters := (t.integrityRegisters.rows.filter
        (fun r => r.measurementId = row.id)).map
      (fun r => ⟨r.id, r.indexUint, r.indexText,
        digestsByOwner t r.id "integrity_register"⟩),
    extensions := extsByOwner t row.id "measurement",
    authorizedBy := cryptoKeysByOwner t row.id "measurement" }

/-- The `ValueTriple.Select`. -/
def valueTripleSelect (t : Tables) (row : ValueTripleRow) : ValueTripleM :=
  { id := row.id, typ := row.typ, isActive := row.isActive,
    environment := envRowByID t row.environmentId,
    measurements := (t.measurements.rows.filter (fun r =>
        r.ownerId = row.id && r.ownerType = "value_triple")).map
      (measurementSelect t) }

/-- The `KeyTriple.Select`. -/
def keyTripleSelect (t : Tables) (row : KeyTripleRow) : KeyTripleM :=
  { id := row.id, typ := row.typ, isActive := row.isActive,
    environment := envRowByID t row.environmentId,
    keyList := cryptoKeysByOwner t row.id "key_triple",
    authorizedBy := cryptoKeysByOwner t row.id "key_triple_auth" }

/-- The `Entity.Select`. -/
def entitySelect (t : Tables) (row : EntityRow) : EntityM :=
  { id := row.id, nameType := row.nameType, name := row.name,
    uri := row.uri,
    roleEntries := (t.roles.rows.filter
        (fun r => r.entityId = row.id)).map (·.role),
    extensions := extsByOwner t row.id "entity" }

/-- The `Locator.Select`. -/
def locatorSelect (t : Tables) (row : LocatorRow) : LocatorM :=
  { id := row.id, href := row.href,
    thumbprint := digestsByOwner t row.id "locator" }

/-- The `ModuleTag.Select`. -/
def moduleTagSelect (t : Tables) (row : ModuleTagRow) : ModuleTagM :=
  { id := row.id, tagIDType := row.tagIDType, tagID := row.tagID,
    tagVersion := row.tagVersion, language := row.language,
    entities := (t.entities.rows.filter (fun r =>
        r.ownerId = row.id && r.ownerType = "module_tag")).map
      (entitySelect t),
    valueTriples := (t.valueTriples.rows.filter
        (fun r => r.moduleId = row.id)).map (valueTripleSelect t),
    keyTriples := (t.keyTriples.rows.filter
        (fun r => r.moduleId = row.id)).map (keyTripleSelect t),
    linkedTags := (t.linkedTags.rows.filter
        (fun r => r.moduleId = row.id)).map
      (fun r => ⟨r.id, r.linkedTagIDType, r.linkedTagID, r.tagRelation⟩),
    extensions := extsByOwner t row.id "module_tag",
    triplesExtensions := extsByOwner t row.id "triples" }

/-- The `Manifest.Select` from a found `manifests` row.  Note: the bun
relation tag on `Manifest.Extensions` reads `polymorphic:module_tag`,
so the loaded extensions are the rows with `owner_type = "module_tag"`
even though `Manifest.Insert` writes them with
`owner_type = "manifest"`; the embedding translates that tag as it
stands in the source. -/
def manifestHydrate (db : DB) (row : ManifestRow) : ManifestM :=
  { id := row.id, manifestIDType := row.manifestIDType,
    manifestID := row.manifestID, digest := row.digest,
    label := row.label, profileType := row.profileType,
    profile := row.profile, notBefore := row.notBefore,
    notAfter := row.notAfter,
    entities := (db.tabs.entities.rows.filter (fun r =>
        r.ownerId = row.id && r.ownerType = "manifest")).map
      (entitySelect db.tabs),
    dependentRIMs := (db.tabs.locators.rows.filter
        (fun r => r.manifestId = row.id)).map (locatorSelect db.tabs),
    moduleTags := (db.tabs.moduleTags.rows.filter
        (fun r => r.manifestId = row.id)).map (moduleTagSelect db.tabs),
    extensions := extsByOwner db.tabs row.id "module_tag" }

/-- The `Manifest.Select` by internal id (`SelectManifest`). -/
def manifestSelect (db : DB) (id : Int) : Except StoreErr ManifestM :=
  if id = 0 then .error .idNotSet
  else
    match db.manifests.rows.find? (fun r => r.id = id) with
    | none => .error .noRows
    | some row => .ok (manifestHydrate db row)

/-! ## Deletes (the `Delete` methods) -/

/-- The `ExtensionValue.Delete`. -/
def extDelete (t : Tables) (x : ExtValM) : Except StoreErr Tables :=
  if x.id = 0 then .error .idNotSet
  else .ok { t with extensions := t.extensions.deleteByID (·.id) x.id }

/-- The `RoleEntry.Delete` (role entries are loaded as bare strings, so the
entity delete removes them by entity id; see `entityDelete`). -/
def roleRowsDelete (t : Tables) (entityId : Int) : Tables :=
  { t with roles := ⟨t.roles.rows.filter (fun r => r.entityId ≠ entityId),
      t.roles.next⟩ }

/-- The `Digest.Delete`. -/
def digestDelete (t : Tables) (d : DigestM) : Except StoreErr Tables :=
  if d.id = 0 then .error .idNotSet
  else .ok { t with digests := t.digests.deleteByID (·.id) d.id }

/-- The `Flag.Delete`. -/
def flagDelete (t : Tables) (f : FlagM) : Except StoreErr Tables :=
  if f.id = 0 then .error .idNotSet
  else .ok { t with flags := t.flags.deleteByID (·.id) f.id }

/-- The `MeasurementValueEntry.Delete`. -/
def mveDelete (t : Tables) (e : MveM) : Except StoreErr Tables :=
  if e.id = 0 then .error .idNotSet
  else .ok { t with valueEntries := t.valueEntries.deleteByID (·.id) e.id }

/-- The `CryptoKey.Delete`. -/
def cryptoKeyDelete (t : Tables) (k : CryptoKeyM) : Except StoreErr Tables :=
  if k.id = 0 then .error .idNotSet
  else .ok { t with cryptoKeys := t.cryptoKeys.deleteByID (·.id) k.id }

/-- The `LinkedTag.Delete`. -/
def linkedTagDelete (t : Tables) (l : LinkedTagM) : Except StoreErr Tables :=
  if l.id = 0 then .error .idNotSet
  else .ok { t with linkedTags := t.linkedTags.deleteByID (·.id) l.id }

/-- The `IntegrityRegister.Delete`: its digests, then the row. -/
def intRegDelete (t : Tables) (r : IntRegM) : Except StoreErr Tables := do
  if r.id = 0 then throw .idNotSet
  let t ← r.digests.foldlM digestDelete t
  return { t with
    integrityRegisters := t.integrityRegisters.deleteByID (·.id) r.id }

/-- The `Measurement.Delete`: authorizing keys, digests, flags, integrity
registers, value entries, extensions, then the row. -/
def measurementDelete (t : Tables) (m : MeasurementM) :
    Except StoreErr Tables := do
  if m.id = 0 then throw .idNotSet
  let t ← m.authorizedBy.foldlM cryptoKeyDelete t
  let t ← m.digests.foldlM digestDelete t
  let t ← m.flags.foldlM flagDelete t
  let t ← m.integrityRegisters.foldlM intRegDelete t
  let t ← m.valueEntries.foldlM mveDelete t
  let t ← m.extensions.foldlM extDelete t
  return { t with measurements := t.measurements.deleteByID (·.id) m.id }

/-- The `Environment.DeleteIfOrphaned`: the environment row is removed only
when neither `key_triples` nor `value_triples` still references it. -/
def envDeleteIfOrphaned (t : Tables) (envId : Int) :
    Except StoreErr Tables := do
  if envId = 0 then throw .idNotSet
  if t.keyTriples.rows.any (fun r => r.environmentId = envId) then
    return t
  if t.valueTriples.rows.any (fun r => r.environmentId = envId) then
    return t
  return { t with environments := t.environments.deleteByID (·.id) envId }

/-- The `ValueTriple.Delete`: measurements, the triple row, then the orphan
check on its environment. -/
def valueTripleDelete (t : Tables) (vt : ValueTripleM) :
    Except StoreErr Tables := do
  if vt.id = 0 then throw .idNotSet
  let t ← vt.measurements.foldlM measurementDelete t
  let t := { t with valueTriples := t.valueTriples.deleteByID (·.id) vt.id }
  match vt.environment with
  | none => throw (.validation "nil environment")
  | some env => envDeleteIfOrphaned t env.id

/-- The `KeyTriple.Delete`: verification keys, authorizing keys, the triple
row, then the orphan check on its environment. -/
def keyTripleDelete (t : Tables) (kt : KeyTripleM) :
    Except StoreErr Tables := do
  if kt.id = 0 then throw .idNotSet
  let t ← kt.keyList.foldlM cryptoKeyDelete t
  let t ← kt.authorizedBy.foldlM cryptoKeyDelete t
  let t := { t with keyTriples := t.keyTriples.deleteByID (·.id) kt.id }
  match kt.environment with
  | none => throw (.validation "nil environment")
  | some env => envDeleteIfOrphaned t env.id

/-- The `Entity.Delete`: extensions, role entries, then the row. -/
def entityDelete (t : Tables) (e : EntityM) : Except StoreErr Tables := do
  if e.id = 0 then throw .idNotSet
  let t ← e.extensions.foldlM extDelete t
  let t := roleRowsDelete t e.id
  return { t with entities := t.entities.deleteByID (·.id) e.id }

/-- The `Locator.Delete`: thumbprint digests, then the row. -/
def locatorDelete (t : Tables) (l : LocatorM) : Except StoreErr Tables := do
  if l.id = 0 then throw .idNotSet
  let t ← l.thumbprint.foldlM digestDelete t
  return { t with locators := t.locators.deleteByID (·.id) l.id }

/-- The `ModuleTag.Delete`: linked tags, entities, value triples, key
triples, tag-level extensions, triples-level extensions, then the
row. -/
def moduleTagDelete (t : Tables) (mt : ModuleTagM) :
    Except StoreErr Tables := do
  if mt.id = 0 then throw .idNotSet
  let t ← mt.linkedTags.foldlM linkedTagDelete t
  let t ← mt.entities.foldlM entityDelete t
  let t ← mt.valueTriples.foldlM valueTripleDelete t
  let t ← mt.keyTriples.foldlM keyTripleDelete t
  let t ← mt.extensions.foldlM extDelete t
  let t ← mt.triplesExtensions.foldlM extDelete t
  return { t with moduleTags := t.moduleTags.deleteByID (·.id) mt.id }

/-- The child deletes of `Manifest.Delete`: entities, module tags and
dependent-RIM locators of the loaded manifest.  A loop over the
manifest-level `Extensions` is absent in the source, exactly as
translated here. -/
def manifestDeleteChildren (t : Tables) (m : ManifestM) :
    Except StoreErr Tables := do
  let t ← m.entities.foldlM entityDelete t
  let t ← m.moduleTags.foldlM moduleTagDelete t
  m.dependentRIMs.foldlM locatorDelete t

/-- The `Manifest.Delete`: the children, then the manifest row. -/
def manifestDelete (db : DB) (m : ManifestM) : Except StoreErr DB := do
  if m.id = 0 then throw .idNotSet
  let t ← manifestDeleteChildren db.tabs m
  return ⟨db.manifests.deleteByID (·.id) m.id, t⟩

/-! ## Store facade (`pkg/store`) -/

/-- The `Store.GetManifest`: a single-row lookup by token-level manifest id,
additionally filtered by label when one is given; an empty label with
`RequireLabel` set fails with `ErrNoLabel` without querying; the nested
structures are then fully populated. -/
def getManifest (cfg : Config) (db : DB) (manifestID label : String) :
    Except StoreErr ManifestM := do
  let found ←
    if label ≠ "" then
      pure (db.manifests.rows.find? (fun r =>
        r.manifestID = manifestID && r.label = label))
    else if cfg.requireLabel then throw StoreErr.noLabel
    else pure (db.manifests.rows.find? (fun r => r.manifestID = manifestID))
  match found with
  | none => throw (.manifestNotFound manifestID)
  | some row => manifestSelect db row.id

/-- The `Store.AddManifest`.  The duplicate lookup is by `manifest_id`
alone.  On a hit with `Force`, the existing manifest is fully loaded
and deleted inside one transaction which is then committed, and control
falls through to the insert; without `Force` the digests decide which
already-in-store error is returned.  The insert itself runs in a fresh
transaction: on an insert error the state reverts to what it was when
that transaction began. -/
def addManifest (cfg : Config) (db : DB) (m : ManifestM) :
    DB × Except StoreErr Unit :=
  if cfg.requireLabel = true ∧ m.label = "" then (db, .error .noLabel)
  else
    match db.manifests.rows.find? (fun r => r.manifestID = m.manifestID) with
    | some ex =>
      if cfg.force = true then
        match manifestSelect db ex.id with
        | .error e => (db, .error e)
        | .ok exm =>
          match manifestDelete db exm with
          | .error e => (db, .error e)
          | .ok db1 =>
            match manifestInsert db1 m with
            | .error e => (db1, .error e)
            | .ok db2 => (db2, .ok ())
      else
        if ex.digest ≠ [] ∧ m.digest ≠ [] then
          if ex.digest = m.digest then
            (db, .error .alreadyInStoreDigestsMatch)
          else
            (db, .error .alreadyInStoreDigestsDiffer)
        else
          (db, .error .alreadyInStore)
    | none =>
      match manifestInsert db m with
      | .error e => (db, .error e)
      | .ok db2 => (db2, .ok ())

/-- The `Store.DeleteManifest`: locate through `GetManifest`, then the
recursive delete. -/
def deleteManifest (cfg : Config) (db : DB) (manifestID label : String) :
    Except StoreErr DB := do
  let m ← getManifest cfg db manifestID label
  manifestDelete db m

/-- The `Store.FindModuleTagIDsForLabel`: the ids of all module tags whose
owning manifest carries the label. -/
def findModuleTagIDsForLabel (db : DB) (label : String) :
    Except StoreErr (List Int) :=
  if label = "" then .error (.validation "no label specified")
  else .ok ((db.tabs.moduleTags.rows.filter (fun mt =>
    db.manifests.rows.any (fun man =>
      man.id = mt.manifestId && man.label = label))).map (·.id))

/-- The columns of a triple row that `getTriples` filters on. -/
structure TripleView where
  id : Int
  environmentId : Int
  moduleId : Int
  isActive : Bool
  deriving DecidableEq, Repr

/-- The environment stage of `getTriples`: when the probe is non-empty,
resolve it through `FindEnvironmentIDs` (whose empty result,
`ErrNoEnvMatch`, is mapped to `ErrNoMatch`) and keep the rows whose
`environment_id` is among the matches. -/
def tripleEnvFilter (db : DB) (probe : EnvFields) (exact : Bool)
    (views : List TripleView) : Except StoreErr (List TripleView) :=
  if probe.isEmpty = false then
    match findEnvironmentIDs db.tabs.environments probe exact with
    | .error .noEnvMatch => .error .noMatch
    | .error e => .error e
    | .ok envIDs =>
      .ok (views.filter (fun v => envIDs.contains v.environmentId))
  else .ok views

/-- The label stage of `getTriples`: a non-empty label keeps the rows
whose `module_id` belongs to a module tag of a manifest with that
label; an empty label under `RequireLabel` is `ErrNoLabel`. -/
def tripleLabelFilter (cfg : Config) (db : DB) (label : String)
    (views : List TripleView) : Except StoreErr (List TripleView) :=
  if label ≠ "" then
    match findModuleTagIDsForLabel db label with
    | .error e => .error e
    | .ok modIDs =>
      .ok (views.filter (fun v => modIDs.contains v.moduleId))
  else if cfg.requireLabel = true then .error .noLabel
  else .ok views

/-- The filtering core of the generic `getTriples`: the `is_active`
clause of the `GetActive*` variants, then the environment stage, then
the label stage.  A scan that matches no row yields the empty list,
not an error. -/
def tripleFilter (cfg : Config) (db : DB) (probe : EnvFields)
    (label : String) (exact activeOnly : Bool) (views : List TripleView) :
    Except StoreErr (List TripleView) :=
  match tripleEnvFilter db probe exact
      (if activeOnly then views.filter (·.isActive) else views) with
  | .error e => .error e
  | .ok vs => tripleLabelFilter cfg db label vs

/-- The `value_triples` rows as filter views. -/
def valueTripleViews (db : DB) : List TripleView :=
  db.tabs.valueTriples.rows.map (fun r =>
    ⟨r.id, r.environmentId, r.moduleId, r.isActive⟩)

/-- The `key_triples` rows as filter views. -/
def keyTripleViews (db : DB) : List TripleView :=
  db.tabs.keyTriples.rows.map (fun r =>
    ⟨r.id, r.environmentId, r.moduleId, r.isActive⟩)

/-- The `Store.GetValueTriples` / `Store.GetActiveValueTriples` (the
`activeOnly` flag selects the variant): filter, then eagerly load each
returned triple's nested children. -/
def getValueTriples (cfg : Config) (db : DB) (probe : EnvFields)
    (label : String) (exact activeOnly : Bool) :
    Except StoreErr (List ValueTripleM) := do
  let views ← tripleFilter cfg db probe label exact activeOnly
    (valueTripleViews db)
  return (db.tabs.valueTriples.rows.filter (fun r =>
    views.any (fun v => v.id = r.id))).map (valueTripleSelect db.tabs)

/-- The `Store.GetKeyTriples` / `Store.GetActiveKeyTriples`. -/
def getKeyTriples (cfg : Config) (db : DB) (probe : EnvFields)
    (label : String) (exact activeOnly : Bool) :
    Except StoreErr (List KeyTripleM) := do
  let views ← tripleFilter cfg db probe label exact activeOnly
    (keyTripleViews db)
  return (db.tabs.keyTriples.rows.filter (fun r =>
    views.any (fun v => v.id = r.id))).map (keyTripleSelect db.tabs)

/-! ## Ingest gating (`Store.AddBytes`) -/

/-- Which decode path `AddBytes` enters after the gate; the CBOR decode
and the hand-off to `AddCoRIM` that follow are outside the claims
checked here. -/
inductive IngestPath where
  | signedInsecure
  | unsigned
  deriving DecidableEq, Repr

/-- The gating logic of `Store.AddBytes`: fewer than three bytes is too
short; a leading `0xD2` (COSE_Sign1) is a signed CoRIM accepted without
signature checking only when the configuration is insecure; the prefix
`0xD9 0x01 0xF5` (tag 501) is an unsigned CoRIM; anything else is an
unrecognized format. -/
def addBytesGate (cfg : Config) (buf : List Nat) :
    Except StoreErr IngestPath :=
  if buf.length < 3 then .error .tooShort
  else if buf.head? = some 0xd2 then
    if ¬cfg.insecure then .error .signedNotSupported
    else .ok .signedInsecure
  else if buf.take 3 = [0xd9, 0x01, 0xf5] then .ok .unsigned
  else .error .unrecognizedFormat

/-! ## Lifecycle commands (`cmd/corim-store/cmd/lifecycle.go`) -/

/-- The generic `setActive` UPDATE over `key_triples`. -/
def keyTriplesSetActive (db : DB) (ids : List Int) (value : Bool) : DB :=
  { db with tabs := { db.tabs with keyTriples :=
      ⟨db.tabs.keyTriples.rows.map (fun r =>
        if ids.contains r.id then { r with isActive := value } else r),
       db.tabs.keyTriples.next⟩ } }

/-- The generic `setActive` UPDATE over `value_triples`. -/
def valueTriplesSetActive (db : DB) (ids : List Int) (value : Bool) : DB :=
  { db with tabs := { db.tabs with valueTriples :=
      ⟨db.tabs.valueTriples.rows.map (fun r =>
        if ids.contains r.id then { r with isActive := value } else r),
       db.tabs.valueTriples.next⟩ } }

/-- The `moduleTagsSetActive`: for each module tag id, gather its key- and
value-triple ids and update them (the source passes the literal `true`
to both updates instead of `value`, which this embedding reproduces);
a module tag owning no triples at all is an error. -/
def moduleTagsSetActive (db : DB) (ids : List Int) (value : Bool) :
    Except StoreErr DB :=
  ids.foldlM (fun db id => do
    let ktIDs := (db.tabs.keyTriples.rows.filter
      (fun r => r.moduleId = id)).map (·.id)
    let db := if ktIDs.isEmpty then db
      else keyTriplesSetActive db ktIDs true
    let vtIDs := (db.tabs.valueTriples.rows.filter
      (fun r => r.moduleId = id)).map (·.id)
    let db := if vtIDs.isEmpty then db
      else valueTriplesSetActive db vtIDs true
    if ktIDs.isEmpty && vtIDs.isEmpty then
      throw (.validation "no triples associated with module tag")
    else return db) db

/-- The module-tag ids owned by the manifests with the given token
manifest id (the join run by the `--manifest` flag of
`activate`/`deactivate`). -/
def moduleTagIDsForManifestTextID (db : DB) (textID : String) : List Int :=
  (db.tabs.moduleTags.rows.filter (fun mt =>
    db.manifests.rows.any (fun man =>
      man.id = mt.manifestId && man.manifestID = textID))).map (·.id)

/-- The `--manifest` branch of `setActiveCommand`: resolve each given
manifest id to all module-tag ids, then `moduleTagsSetActive`. -/
def manifestsSetActive (db : DB) (textIDs : List String) (value : Bool) :
    Except StoreErr DB :=
  moduleTagsSetActive db
    (textIDs.foldl (fun acc s => acc ++ moduleTagIDsForManifestTextID db s) [])
    value

/-! ## Concrete states and manifests used by the scenario theorems -/

/-- The environment of spec scenario S2:
`{vendor = acme, instance = (bytes, deadbeef)}`. -/
def acmeEnv : EnvFields :=
  { vendor := some "acme", instanceType := some "bytes",
    instanceBytes := some [222, 173, 190, 239] }

/-- A valid manifest used to seed the force-overwrite scenario. -/
def forceManifest : ManifestM :=
  { manifestIDType := "string", manifestID := "m8", digest := [1],
    moduleTags :=
      [{ tagIDType := "string", tagID := "t8",
         keyTriples :=
           [{ typ := "attest", environment := some ⟨0, {}⟩,
              keyList :=
                [{ keyType := "pkix-base64-key", keyBytes := [1] }] }] }] }

/-- An invalid replacement for the same manifest id (no module tags),
whose insert transaction fails after the force-delete has committed. -/
def forceBadManifest : ManifestM :=
  { manifestIDType := "string", manifestID := "m8", digest := [2] }

/-- The store state for the activation scenario: manifest `m1` owns
module tag 1 with one key triple and one value triple, both inactive;
manifest `m2` owns module tag 2 with an active value triple. -/
def lifecycleDB : DB :=
  { manifests := ⟨[⟨1, "string", "m1", [], "", none, none, none, none⟩,
                   ⟨2, "string", "m2", [], "", none, none, none, none⟩], 3⟩,
    tabs :=
      { environments := ⟨[⟨1, {}⟩], 2⟩,
        moduleTags := ⟨[⟨1, "string", "t1", 1, none, 1⟩,
                        ⟨2, "string", "t2", 1, none, 2⟩], 3⟩,
        keyTriples := ⟨[⟨1, 1, "attest", false, 1⟩], 2⟩,
        valueTriples := ⟨[⟨1, 1, "reference", false, 1⟩,
                          ⟨2, 1, "reference", true, 2⟩], 3⟩ } }

/-- A manifest carrying one manifest-level extension value. -/
def extManifest : ManifestM :=
  { manifestIDType := "string", manifestID := "ext-man",
    moduleTags :=
      [{ tagIDType := "string", tagID := "ext-tag",
         keyTriples :=
           [{ typ := "attest", environment := some ⟨0, {}⟩,
              keyList :=
                [{ keyType := "pkix-base64-key", keyBytes := [1, 2] }] }] }],
    extensions :=
      [{ fieldKind := 2, fieldName := "Zot", jsonTag := "zot",
         valueInt := 7 }] }

/-- A manifest with a module tag (key triple, crypto key, environment)
and one manifest-level extension value, used for the delete scenario. -/
def delManifest : ManifestM :=
  { manifestIDType := "string", manifestID := "del-man",
    moduleTags :=
      [{ tagIDType := "string", tagID := "del-tag",
         keyTriples :=
           [{ typ := "attest", environment := some ⟨0, {}⟩,
              keyList :=
                [{ keyType := "pkix-base64-key", keyBytes := [3] }] }] }],
    extensions :=
      [{ fieldKind := 2, fieldName := "Qux", jsonTag := "qux",
         valueInt := 9 }] }

/-- A store with one environment row (the S2 environment) and no triple
rows at all. -/
def probeOnlyDB : DB := { tabs := { environments := ⟨[⟨1, acmeEnv⟩], 2⟩ } }

/-! ## Supporting lemmas about the facade -/

theorem colMatches_exact_iff {α : Type} [DecidableEq α]
    (p r : Option α) : colMatches p true r = true ↔ r = p := by
  cases p <;> simp [colMatches, Option.isNone_iff_eq_none]

theorem envMatches_exact_iff (e : EnvFields) (r : EnvRow) :
    envMatches e true r = true ↔ r.f = e := by
  simp only [envMatches, Bool.and_eq_true, colMatches_exact_iff]
  constructor
  · rintro ⟨⟨⟨⟨⟨⟨⟨⟨⟨h1, h2⟩, h3⟩, h4⟩, h5⟩, h6⟩, h7⟩, h8⟩, h9⟩, h10⟩
    cases r with
    | mk id f =>
      cases f
      cases e
      simp_all
  · intro h
    subst h
    simp

theorem colMatches_exact_imp {α : Type} [DecidableEq α]
    (p r : Option α) (h : colMatches p true r = true) :
    colMatches p false r = true := by
  cases p <;> simp_all [colMatches]

theorem envMatches_exact_imp (e : EnvFields) (r : EnvRow)
    (h : envMatches e true r = true) : envMatches e false r = true := by
  simp only [envMatches, Bool.and_eq_true] at h ⊢
  obtain ⟨⟨⟨⟨⟨⟨⟨⟨⟨h1, h2⟩, h3⟩, h4⟩, h5⟩, h6⟩, h7⟩, h8⟩, h9⟩, h10⟩ := h
  exact ⟨⟨⟨⟨⟨⟨⟨⟨⟨colMatches_exact_imp _ _ h1, colMatches_exact_imp _ _ h2⟩,
    colMatches_exact_imp _ _ h3⟩, colMatches_exact_imp _ _ h4⟩,
    colMatches_exact_imp _ _ h5⟩, colMatches_exact_imp _ _ h6⟩,
    colMatches_exact_imp _ _ h7⟩, colMatches_exact_imp _ _ h8⟩,
    colMatches_exact_imp _ _ h9⟩, colMatches_exact_imp _ _ h10⟩

theorem exbind_ok {ε α β : Type} (a : α) (f : α → Except ε β) :
    (Except.ok a >>= f) = f a := rfl

theorem exbind_error {ε α β : Type} (e : ε) (f : α → Except ε β) :
    ((Except.error e : Except ε α) >>= f) = Except.error e := rfl

/-- A successful `envInsert` hands back an id whose row carries exactly
the inserted columns, and the table keeps every old row. -/
theorem envInsert_row (t : Table EnvRow) (e : EnvFields)
    (t' : Table EnvRow) (rid : Int)
    (h : envInsert t e = .ok (t', rid)) :
    ⟨rid, e⟩ ∈ t'.rows ∧ t.rows.Sublist t'.rows := by
  unfold envInsert at h
  cases hv : envValidate e with
  | error err => rw [hv, exbind_error] at h; exact absurd h (by simp)
  | ok u =>
    rw [hv, exbind_ok] at h
    cases hf : t.rows.find? (fun r => envMatches e true r) with
    | some r =>
      rw [hf] at h
      simp only [Except.ok.injEq, Prod.mk.injEq] at h
      obtain ⟨ht, hid⟩ := h
      subst ht
      have hm := List.find?_some hf
      have hmem := List.mem_of_find?_eq_some hf
      rw [envMatches_exact_iff] at hm
      constructor
      · have : r = ⟨rid, e⟩ := by
          cases r; simp_all
        rw [← this]; exact hmem
      · exact List.Sublist.refl _
    | none =>
      rw [hf] at h
      simp only [Table.insertRow, Except.ok.injEq, Prod.mk.injEq] at h
      obtain ⟨ht, hid⟩ := h
      subst ht
      constructor
      · simp [hid]
      · exact List.sublist_append_left _ _

/-- The `envInsert` operation preserves the table invariant. -/
theorem envInsert_wf (t : Table EnvRow) (e : EnvFields)
    (t' : Table EnvRow) (rid : Int)
    (hwf : envTableWF t) (h : envInsert t e = .ok (t', rid)) :
    envTableWF t' := by
  unfold envInsert at h
  cases hv : envValidate e with
  | error err => rw [hv, exbind_error] at h; exact absurd h (by simp)
  | ok u =>
    rw [hv, exbind_ok] at h
    cases hf : t.rows.find? (fun r => envMatches e true r) with
    | some r =>
      rw [hf] at h
      simp only [Except.ok.injEq, Prod.mk.injEq] at h
      obtain ⟨ht, _⟩ := h
      subst ht
      exact hwf
    | none =>
      rw [hf] at h
      simp only [Table.insertRow, Except.ok.injEq, Prod.mk.injEq] at h
      obtain ⟨ht, _⟩ := h
      subst ht
      obtain ⟨hpos, hbound, hnodup⟩ := hwf
      refine ⟨by simp; omega, ?_, ?_⟩
      · intro r hr
        simp only [List.mem_append, List.mem_singleton] at hr
        cases hr with
        | inl hr =>
          have := hbound r hr
          exact ⟨this.1, by simp; omega⟩
        | inr hr =>
          subst hr
          exact ⟨by simpa using hpos, by simp⟩
      · simp only [List.map_append, List.map_cons, List.map_nil]
        rw [List.nodup_append]
        refine ⟨hnodup, List.nodup_singleton _, ?_⟩
        intro x hx hy
        simp only [List.mem_singleton] at hy
        subst hy
        simp only [List.mem_map] at hx
        obtain ⟨r, hr, hid⟩ := hx
        have := hbound r hr
        omega

theorem find?_append_of_none {α : Type} (p : α → Bool) (l1 l2 : List α)
    (h : l1.find? p = none) : (l1 ++ l2).find? p = l2.find? p := by
  induction l1 with
  | nil => simp
  | cons a l ih =>
    simp only [List.cons_append]
    cases hp : p a with
    | true =>
      rw [List.find?_cons_of_pos _ hp] at h
      cases h
    | false =>
      rw [List.find?_cons_of_neg _ (by simp [hp])] at h
      rw [List.find?_cons_of_neg _ (by simp [hp])]
      exact ih h

theorem nodup_map_mem_inj {α β : Type} (f : α → β) (l : List α)
    (h : (l.map f).Nodup) (a b : α) (ha : a ∈ l) (hb : b ∈ l)
    (hf : f a = f b) : a = b := by
  induction l with
  | nil => cases ha
  | cons x xs ih =>
    simp only [List.map_cons, List.nodup_cons] at h
    simp only [List.mem_cons] at ha hb
    cases ha with
    | inl ha =>
      cases hb with
      | inl hb => rw [ha, hb]
      | inr hb =>
        subst ha
        exact absurd (hf ▸ List.mem_map_of_mem f hb) h.1
    | inr ha =>
      cases hb with
      | inl hb =>
        subst hb
        exact absurd (hf ▸ List.mem_map_of_mem f ha) h.1
      | inr hb => exact ih h.2 ha hb

/-- C5: `Environment.Insert` deduplicates.  If the table holds no row
with exactly the candidate's columns, the insert creates exactly one
row; re-inserting the same environment right after is a no-op that
adopts the id assigned by the first insert; and an environment that
differs in any column never receives the id of the first insert. -/
theorem environment_insert_dedup (t t1 : Table EnvRow) (e : EnvFields)
    (r1 : Int) (hwf : envTableWF t)
    (h1 : envInsert t e = .ok (t1, r1)) :
    ((∀ r ∈ t.rows, r.f ≠ e) → t1.rows.length = t.rows.length + 1) ∧
    envInsert t1 e = .ok (t1, r1) ∧
    (∀ e2 t2 r2, e2 ≠ e → envInsert t1 e2 = .ok (t2, r2) → r2 ≠ r1) := by
  have hv : ∃ u, envValidate e = .ok u := by
    cases hv : envValidate e with
    | error err =>
      unfold envInsert at h1
      rw [hv, exbind_error] at h1
      exact absurd h1 (by simp)
    | ok u => exact ⟨u, rfl⟩
  obtain ⟨u, hv⟩ := hv
  unfold envInsert at h1
  rw [hv, exbind_ok] at h1
  refine ⟨?_, ?_, ?_⟩
  · intro hfresh
    cases hf : t.rows.find? (fun r => envMatches e true r) with
    | some r =>
      have hm := List.find?_some hf
      rw [envMatches_exact_iff] at hm
      exact absurd hm (hfresh r (List.mem_of_find?_eq_some hf))
    | none =>
      rw [hf] at h1
      simp only [Table.insertRow, Except.ok.injEq, Prod.mk.injEq] at h1
      rw [← h1.1]
      simp
  · cases hf : t.rows.find? (fun r => envMatches e true r) with
    | some r =>
      rw [hf] at h1
      simp only [Except.ok.injEq, Prod.mk.injEq] at h1
      obtain ⟨ht, hid⟩ := h1
      subst ht
      unfold envInsert
      rw [hv, exbind_ok, hf]
      simp [hid]
    | none =>
      rw [hf] at h1
      simp only [Table.insertRow, Except.ok.injEq, Prod.mk.injEq] at h1
      obtain ⟨ht, hid⟩ := h1
      subst hid
      have hrows : t1.rows = t.rows ++ [⟨t.next, e⟩] := by rw [← ht]
      have hnew : envMatches e true ⟨t.next, e⟩ = true := by
        rw [envMatches_exact_iff]
      have hfind : t1.rows.find? (fun r => envMatches e true r) =
          some ⟨t.next, e⟩ := by
        rw [hrows, find?_append_of_none _ _ _ hf]
        exact List.find?_cons_of_pos _ hnew
      unfold envInsert
      rw [hv, exbind_ok, hfind]
  · intro e2 t2 r2 hne h2
    have hrow1 : (⟨r1, e⟩ : EnvRow) ∈ t1.rows ∧ t.rows.Sublist t1.rows := by
      apply envInsert_row t e t1 r1
      unfold envInsert
      rw [hv, exbind_ok, h1]
    have hwf1 : envTableWF t1 := by
      apply envInsert_wf t e t1 r1 hwf
      unfold envInsert
      rw [hv, exbind_ok, h1]
    have hrow2 := envInsert_row t1 e2 t2 r2 h2
    have hwf2 := envInsert_wf t1 e2 t2 r2 hwf1 h2
    intro heq
    subst heq
    have hmem1 : (⟨r2, e⟩ : EnvRow) ∈ t2.rows :=
      hrow2.2.mem hrow1.1
    have hmem2 : (⟨r2, e2⟩ : EnvRow) ∈ t2.rows := hrow2.1
    have := nodup_map_mem_inj (fun r : EnvRow => r.id) t2.rows hwf2.2.2
      ⟨r2, e2⟩ ⟨r2, e⟩ hmem2 hmem1 rfl
    simp only [EnvRow.mk.injEq] at this
    exact hne this.2

/-- Witness for C5: inserting the scenario-S2 environment into the
empty table and inserting it again is a no-op returning the first id. -/
theorem environment_insert_dedup_witness :
    envInsert ⟨[⟨1, acmeEnv⟩], 2⟩ acmeEnv = .ok (⟨[⟨1, acmeEnv⟩], 2⟩, 1) := by
  have hwf : envTableWF (Table.empty : Table EnvRow) := by
    refine ⟨by norm_num [Table.empty], ?_, by simp [Table.empty]⟩
    intro r hr
    simp [Table.empty] at hr
  exact (environment_insert_dedup Table.empty
    ⟨[⟨1, acmeEnv⟩], 2⟩ acmeEnv 1 hwf rfl).2.1

/-- C6: exact environment matching is a refinement of non-exact
matching: every environment id selected with `exact = true` is also
selected with `exact = false`, because exact mode only adds `IS NULL`
constraints for unset probe columns while the constraints for set
columns coincide. -/
theorem exact_match_subset_of_nonexact (t : Table EnvRow) (p : EnvFields) :
    ∀ id, id ∈ matchEnvIDs t p true → id ∈ matchEnvIDs t p false := by
  intro id hid
  simp only [matchEnvIDs, List.mem_map] at hid ⊢
  obtain ⟨r, hr, hid⟩ := hid
  refine ⟨r, ?_, hid⟩
  rw [List.mem_filter] at hr ⊢
  exact ⟨hr.1, envMatches_exact_imp _ _ hr.2⟩

/-- Witness for C6 on a one-row table probed with an all-unset probe. -/
theorem exact_match_subset_of_nonexact_witness :
    (1 : Int) ∈ matchEnvIDs ⟨[⟨1, {}⟩], 2⟩ {} false :=
  exact_match_subset_of_nonexact ⟨[⟨1, {}⟩], 2⟩ {} 1 (by decide)

theorem manifestSelect_id (db : DB) (i : Int) (mm : ManifestM)
    (h : manifestSelect db i = .ok mm) : mm.id = i := by
  unfold manifestSelect at h
  by_cases hz : i = 0
  · simp [hz] at h
  · simp only [hz, if_false] at h
    cases hf : db.manifests.rows.find? (fun r => r.id = i) with
    | none => rw [hf] at h; exact absurd h (by simp)
    | some row =>
      rw [hf] at h
      have hid := List.find?_some hf
      simp only [decide_eq_true_eq] at hid
      simp only [Except.ok.injEq] at h
      rw [← h]
      simpa [manifestHydrate] using hid

theorem manifestInsert_manifests (db : DB) (m : ManifestM) (db' : DB)
    (h : manifestInsert db m = .ok db') :
    db'.manifests.rows = db.manifests.rows ++
      [⟨db.manifests.next, m.manifestIDType, m.manifestID, m.digest,
        m.label, m.profileType, m.profile, m.notBefore, m.notAfter⟩] ∧
    db'.manifests.next = db.manifests.next + 1 := by
  unfold manifestInsert at h
  cases hv : manifestValidate m with
  | error e => rw [hv, exbind_error] at h; exact absurd h (by simp)
  | ok u =>
    rw [hv, exbind_ok] at h
    simp only [] at h
    cases hc : manifestInsertChildren db.tabs m
        (db.manifests.insertRow (fun id =>
          ⟨id, m.manifestIDType, m.manifestID, m.digest, m.label,
            m.profileType, m.profile, m.notBefore, m.notAfter⟩)).2 with
    | error e => rw [hc, exbind_error] at h; exact absurd h (by simp)
    | ok t =>
      rw [hc, exbind_ok] at h
      simp only [pure, Except.pure, Except.ok.injEq] at h
      rw [← h]
      exact ⟨rfl, rfl⟩

theorem manifestDelete_manifests (db : DB) (m : ManifestM) (db' : DB)
    (h : manifestDelete db m = .ok db') :
    db'.manifests.rows = db.manifests.rows.filter (fun r => r.id ≠ m.id) ∧
    db'.manifests.next = db.manifests.next := by
  unfold manifestDelete at h
  by_cases hz : m.id = 0
  · simp only [hz, if_true] at h
    exact absurd h
      (by simp [throw, throwThe, MonadExceptOf.throw, exbind_error])
  · simp only [hz, if_false] at h
    cases hc : manifestDeleteChildren db.tabs m with
    | error e =>
      rw [hc] at h
      simp only [exbind_ok, exbind_error, pure, Except.pure] at h
      exact absurd h (by simp)
    | ok t =>
      rw [hc] at h
      simp only [exbind_ok, exbind_error, pure, Except.pure,
        Except.ok.injEq] at h
      rw [← h]
      exact ⟨rfl, rfl⟩

/-! ## Claim C4 -/

/-- C4: when `AddManifest` finds the incoming `manifest_id` already in
the store, then with `Force = false` it leaves the store unchanged and
fails with `AlreadyInStoreDigestsMatch` when both digests are set and
equal, `AlreadyInStoreDigestsDiffer` when both are set and unequal, and
`AlreadyInStore` when either is missing; with `Force = true` a
successful call has deleted the existing manifest row and inserted the
new one. -/
theorem addManifest_conflict_on_existing_id (cfg : Config) (db : DB)
    (m : ManifestM) (ex : ManifestRow)
    (hreq : ¬(cfg.requireLabel = true ∧ m.label = ""))
    (hfound : db.manifests.rows.find?
      (fun r => r.manifestID = m.manifestID) = some ex) :
    (cfg.force = false →
      addManifest cfg db m = (db, .error
        (if ex.digest ≠ [] ∧ m.digest ≠ [] then
          (if ex.digest = m.digest then .alreadyInStoreDigestsMatch
           else .alreadyInStoreDigestsDiffer)
         else .alreadyInStore))) ∧
    (cfg.force = true → ∀ db2, addManifest cfg db m = (db2, .ok ()) →
      db2.manifests.rows =
        db.manifests.rows.filter (fun r => r.id ≠ ex.id) ++
          [⟨db.manifests.next, m.manifestIDType, m.manifestID, m.digest,
            m.label, m.profileType, m.profile, m.notBefore,
            m.notAfter⟩]) := by
  constructor
  · intro hforce
    unfold addManifest
    rw [if_neg hreq]
    simp only [hfound, hforce]
    rw [if_neg (by simp : ¬(false = true))]
    by_cases h1 : ex.digest ≠ [] ∧ m.digest ≠ []
    · by_cases h2 : ex.digest = m.digest
      · rw [if_pos h1, if_pos h1, if_pos h2, if_pos h2]
      · rw [if_pos h1, if_pos h1, if_neg h2, if_neg h2]
    · rw [if_neg h1, if_neg h1]
  · intro hforce db2 hadd
    unfold addManifest at hadd
    rw [if_neg hreq] at hadd
    simp only [hfound, hforce] at hadd
    rw [if_pos trivial] at hadd
    cases hsel : manifestSelect db ex.id with
    | error e =>
      simp only [hsel, Prod.mk.injEq] at hadd
      exact absurd hadd.2 (by simp)
    | ok exm =>
      simp only [hsel] at hadd
      cases hdel : manifestDelete db exm with
      | error e =>
        simp only [hdel, Prod.mk.injEq] at hadd
        exact absurd hadd.2 (by simp)
      | ok db1 =>
        simp only [hdel] at hadd
        cases hins : manifestInsert db1 m with
        | error e =>
          simp only [hins, Prod.mk.injEq] at hadd
          exact absurd hadd.2 (by simp)
        | ok db2s =>
          simp only [hins, Prod.mk.injEq] at hadd
          have hid := manifestSelect_id db ex.id exm hsel
          have hd := manifestDelete_manifests db exm db1 hdel
          have hi := manifestInsert_manifests db1 m db2s hins
          rw [← hadd.1, hi.1, hd.1, hd.2, hid]

/-- Witness for C4: a store holding manifest id `x` with digest `[1]`,
re-added with digest `[1]` and `Force = false`, is unchanged and
reports that the digests match. -/
theorem addManifest_conflict_on_existing_id_witness :
    addManifest {} ⟨⟨[⟨1, "string", "x", [1], "L1", none, none, none,
        none⟩], 2⟩, {}⟩
      { manifestIDType := "string", manifestID := "x", digest := [1] } =
      (⟨⟨[⟨1, "string", "x", [1], "L1", none, none, none, none⟩], 2⟩, {}⟩,
        .error .alreadyInStoreDigestsMatch) := by
  have h := (addManifest_conflict_on_existing_id {}
    ⟨⟨[⟨1, "string", "x", [1], "L1", none, none, none, none⟩], 2⟩, {}⟩
    { manifestIDType := "string", manifestID := "x", digest := [1] }
    ⟨1, "string", "x", [1], "L1", none, none, none, none⟩
    (by simp) (by decide)).1 rfl
  exact h.trans (by decide)

/-! ## Claim C10 -/

/-- C10: the duplicate check of `AddManifest` keys on `manifest_id`
alone and ignores the label: when a stored manifest carries the same
manifest id under a different label, a non-`Force` add leaves the store
unchanged and fails with one of the already-in-store errors instead of
creating a second row under the new label. -/
theorem addManifest_duplicate_check_ignores_label (cfg : Config)
    (db : DB) (m : ManifestM) (ex : ManifestRow)
    (hforce : cfg.force = false)
    (hreq : ¬(cfg.requireLabel = true ∧ m.label = ""))
    (hfound : db.manifests.rows.find?
      (fun r => r.manifestID = m.manifestID) = some ex)
    (hlabel : ex.label ≠ m.label) :
    (addManifest cfg db m).1 = db ∧
    ∃ e, (addManifest cfg db m).2 = .error e ∧
      (e = StoreErr.alreadyInStore ∨
       e = StoreErr.alreadyInStoreDigestsMatch ∨
       e = StoreErr.alreadyInStoreDigestsDiffer) := by
  unfold addManifest
  rw [if_neg hreq]
  simp only [hfound, hforce]
  rw [if_neg (by simp : ¬(false = true))]
  by_cases h1 : ex.digest ≠ [] ∧ m.digest ≠ []
  · by_cases h2 : ex.digest = m.digest
    · rw [if_pos h1, if_pos h2]
      exact ⟨rfl, .alreadyInStoreDigestsMatch, rfl, by simp⟩
    · rw [if_pos h1, if_neg h2]
      exact ⟨rfl, .alreadyInStoreDigestsDiffer, rfl, by simp⟩
  · rw [if_neg h1]
    exact ⟨rfl, .alreadyInStore, rfl, by simp⟩

/-- Witness for C10: manifest id `y` stored under label `L1`, re-added
under label `L2`: the state is unchanged and an already-in-store error
is reported. -/
theorem addManifest_duplicate_check_ignores_label_witness :
    (addManifest {} ⟨⟨[⟨1, "string", "y", [], "L1", none, none, none,
        none⟩], 2⟩, {}⟩
      { manifestIDType := "string", manifestID := "y", label := "L2" }).1 =
      ⟨⟨[⟨1, "string", "y", [], "L1", none, none, none, none⟩], 2⟩, {}⟩ :=
  (addManifest_duplicate_check_ignores_label {}
    ⟨⟨[⟨1, "string", "y", [], "L1", none, none, none, none⟩], 2⟩, {}⟩
    { manifestIDType := "string", manifestID := "y", label := "L2" }
    ⟨1, "string", "y", [], "L1", none, none, none, none⟩
    rfl (by simp) (by decide) (by decide)).1

/-! ## Claim C8 -/

/-- C8 counterexample: with `Force = true` and an existing manifest,
an `AddManifest` whose insert step fails does NOT leave the store as it
was before the call: the delete of the existing manifest ran in its own
committed transaction, so the manifest is gone (row count drops from 1
to 0) even though the call returns an error. -/
theorem addManifest_force_failure_changes_state :
    ((manifestInsert {} forceManifest).map (fun db =>
      ((addManifest ⟨false, false, true⟩ db forceBadManifest).2,
       decide ((addManifest ⟨false, false, true⟩ db forceBadManifest).1 = db),
       (addManifest ⟨false, false, true⟩ db
         forceBadManifest).1.manifests.rows.length,
       db.manifests.rows.length))) =
      .ok (.error (.validation "no module tags"), false, 0, 1) := by
  decide

/-- C8 (amended): the insert of a single manifest runs in one
transaction that is rolled back on error, so without `Force` a failed
`AddManifest` leaves the store exactly as before the call (with `Force`
the state reverts only to the point after the separately committed
delete of the existing manifest). -/
theorem addManifest_error_state_unchanged_without_force (cfg : Config)
    (db : DB) (m : ManifestM) (e : StoreErr)
    (hforce : cfg.force = false)
    (h : (addManifest cfg db m).2 = .error e) :
    (addManifest cfg db m).1 = db := by
  unfold addManifest at h ⊢
  by_cases hreq : cfg.requireLabel = true ∧ m.label = ""
  · rw [if_pos hreq]
  · rw [if_neg hreq] at h ⊢
    cases hfound : db.manifests.rows.find?
        (fun r => r.manifestID = m.manifestID) with
    | some ex =>
      simp only [hfound, hforce] at h ⊢
      rw [if_neg (by simp : ¬(false = true))]
      by_cases h1 : ex.digest ≠ [] ∧ m.digest ≠ []
      · by_cases h2 : ex.digest = m.digest
        · rw [if_pos h1, if_pos h2]
        · rw [if_pos h1, if_neg h2]
      · rw [if_neg h1]
    | none =>
      simp only [hfound] at h ⊢
      cases hins : manifestInsert db m with
      | error e2 => simp only [hins]
      | ok db2 =>
        simp only [hins] at h
        exact absurd h (by simp)

/-- Witness for C8's amended statement: an invalid manifest added to
the empty store without `Force` fails and leaves the store empty. -/
theorem addManifest_error_state_unchanged_without_force_witness :
    (addManifest {} {} { manifestIDType := "string", manifestID := "w" }).1 =
      ({} : DB) :=
  addManifest_error_state_unchanged_without_force {} {}
    { manifestIDType := "string", manifestID := "w" }
    (.validation "no module tags") rfl (by decide)

/-! ## Claim C7 -/

/-- C7: the `AddBytes` gate.  Fewer than three bytes fails with the
too-short error; a buffer starting with `0xD2` is treated as a signed
CoRIM and rejected unless the store allows insecure ingest (in which
case the signed path, which skips signature verification, is entered);
a buffer starting with `0xD9 0x01 0xF5` enters the unsigned-CoRIM path;
any other prefix fails as an unrecognized format. -/
theorem addBytes_gate_classification (cfg : Config) (buf : List Nat) :
    (buf.length < 3 → addBytesGate cfg buf = .error .tooShort) ∧
    (3 ≤ buf.length → buf.head? = some 0xd2 →
      addBytesGate cfg buf =
        (if cfg.insecure then .ok .signedInsecure
         else .error .signedNotSupported)) ∧
    (buf.take 3 = [0xd9, 0x01, 0xf5] →
      addBytesGate cfg buf = .ok .unsigned) ∧
    (3 ≤ buf.length → buf.head? ≠ some 0xd2 →
      buf.take 3 ≠ [0xd9, 0x01, 0xf5] →
      addBytesGate cfg buf = .error .unrecognizedFormat) := by
  refine ⟨?_, ?_, ?_, ?_⟩
  · intro h
    unfold addBytesGate
    rw [if_pos h]
  · intro hlen hhead
    unfold addBytesGate
    rw [if_neg (by omega), if_pos hhead]
    cases hins : cfg.insecure with
    | true => rw [if_neg (by simp), if_pos rfl]
    | false => rw [if_pos (by simp), if_neg (by simp)]
  · intro htake
    cases buf with
    | nil => simp [List.take] at htake
    | cons a l =>
      cases l with
      | nil => simp [List.take] at htake
      | cons b l2 =>
        cases l2 with
        | nil => simp [List.take] at htake
        | cons c l3 =>
          simp at htake
          obtain ⟨ha, hb, hc⟩ := htake
          subst ha
          subst hb
          subst hc
          unfold addBytesGate
          rw [if_neg (by simp only [List.length_cons]; omega)]
          rw [if_neg (by simp)]
          rw [if_pos (by simp)]
  · intro hlen hhead htake
    unfold addBytesGate
    rw [if_neg (by omega), if_neg hhead, if_neg htake]

/-- Witness for C7 at concrete buffers for each branch of the gate. -/
theorem addBytes_gate_classification_witness :
    addBytesGate {} [1, 2] = .error .tooShort ∧
    addBytesGate ⟨false, true, false⟩ [0xd2, 0, 0] = .ok .signedInsecure ∧
    addBytesGate {} [0xd2, 0, 0] = .error .signedNotSupported ∧
    addBytesGate {} [0xd9, 0x01, 0xf5, 9] = .ok .unsigned ∧
    addBytesGate {} [1, 2, 3] = .error .unrecognizedFormat := by
  refine ⟨?_, ?_, ?_, ?_, ?_⟩
  · exact (addBytes_gate_classification {} [1, 2]).1 (by norm_num)
  · exact ((addBytes_gate_classification ⟨false, true, false⟩
      [0xd2, 0, 0]).2.1 (by norm_num) rfl).trans (by decide)
  · exact ((addBytes_gate_classification {}
      [0xd2, 0, 0]).2.1 (by norm_num) rfl).trans (by decide)
  · exact (addBytes_gate_classification {}
      [0xd9, 0x01, 0xf5, 9]).2.2.1 (by decide)
  · exact (addBytes_gate_classification {} [1, 2, 3]).2.2.2
      (by norm_num) (by decide) (by decide)

/-! ## Claim C1 -/

/-- C1 (code bug): deactivating manifest `m1` — `SetActive` with
`value = false` through the manifest-id resolution — sets
`is_active = TRUE` on `m1`'s key triple and value triple, because
`moduleTagsSetActive` passes the literal `true` to both triple updates
instead of its `value` parameter.  The triples of the untouched
manifest `m2` keep their flag. -/
theorem deactivate_manifest_sets_triples_active :
    manifestsSetActive lifecycleDB ["m1"] false =
      .ok { lifecycleDB with tabs :=
        { lifecycleDB.tabs with
          keyTriples := ⟨[⟨1, 1, "attest", true, 1⟩], 2⟩,
          valueTriples := ⟨[⟨1, 1, "reference", true, 1⟩,
                            ⟨2, 1, "reference", true, 2⟩], 3⟩ } } := by
  decide

/-! ## Claim C2 -/

/-- C2 (code bug): inserting a manifest with a manifest-level extension
writes the extension row with `owner_type = "manifest"`, but the select
relation on `Manifest.Extensions` is declared `polymorphic:module_tag`,
so reloading the manifest yields no extensions at all: the row graph
written at insert time is not read back, and the regenerated token
cannot equal the original. -/
theorem manifest_extension_rows_lost_on_select :
    extManifest.extensions ≠ [] ∧
    ((manifestInsert {} extManifest).map (fun db =>
      (db.tabs.extensions.rows.map
        (fun r => (r.fieldName, r.ownerId, r.ownerType)),
       (manifestSelect db 1).map (fun mm => mm.extensions)))) =
      .ok ([("Zot", 1, "manifest")], .ok []) := by
  exact ⟨by decide, by decide⟩

/-! ## Claim C9 -/

/-- C9 (code bug): after inserting `delManifest` and then deleting it
through `DeleteManifest`, every module tag, triple, crypto key and the
now-orphaned environment row is gone — but the manifest-level
`ExtensionValue` row (owner type `manifest`) survives, because
`Manifest.Delete` never iterates the manifest's extensions (and the
select that feeds it loads none due to the `polymorphic:module_tag`
relation tag). -/
theorem delete_manifest_leaves_extension_rows :
    ((manifestInsert {} delManifest).bind (fun db =>
      deleteManifest {} db "del-man" "")).map (fun db =>
        (db.manifests.rows.isEmpty && db.tabs.moduleTags.rows.isEmpty &&
         db.tabs.keyTriples.rows.isEmpty &&
         db.tabs.cryptoKeys.rows.isEmpty &&
         db.tabs.environments.rows.isEmpty,
         db.tabs.extensions.rows.map (fun r => (r.fieldName, r.ownerType)))) =
      .ok (true, [("Qux", "manifest")]) := by
  decide

/-! ## Claim C3 -/

theorem tripleLabelFilter_no_noMatch (cfg : Config) (db : DB)
    (label : String) (views : List TripleView) :
    tripleLabelFilter cfg db label views ≠ .error .noMatch := by
  unfold tripleLabelFilter
  by_cases hl : label ≠ ""
  · rw [if_pos hl]
    unfold findModuleTagIDsForLabel
    rw [if_neg (by simpa using hl)]
    simp
  · rw [if_neg hl]
    by_cases hr : cfg.requireLabel = true
    · rw [if_pos hr]
      simp
    · rw [if_neg hr]
      simp

theorem tripleEnvFilter_noMatch_iff (db : DB) (probe : EnvFields)
    (exact : Bool) (views : List TripleView) :
    (tripleEnvFilter db probe exact views = .error .noMatch) ↔
    (probe.isEmpty = false ∧
      matchEnvIDs db.tabs.environments probe exact = []) := by
  unfold tripleEnvFilter findEnvironmentIDs
  cases hpe : probe.isEmpty with
  | true =>
    rw [if_neg (by simp)]
    simp
  | false =>
    rw [if_pos rfl]
    cases hm : matchEnvIDs db.tabs.environments probe exact with
    | nil => simp [hm]
    | cons i ids => simp [hm]

theorem tripleEnvFilter_error_eq (db : DB) (probe : EnvFields)
    (exact : Bool) (views : List TripleView) (e : StoreErr)
    (h : tripleEnvFilter db probe exact views = .error e) :
    e = .noMatch := by
  unfold tripleEnvFilter findEnvironmentIDs at h
  by_cases hpe : probe.isEmpty = false
  · rw [if_pos hpe] at h
    cases hm : matchEnvIDs db.tabs.environments probe exact with
    | nil =>
      simp only [hm] at h
      simp only [Except.error.injEq] at h
      exact h.symm
    | cons i ids => simp [hm] at h
  · rw [if_neg hpe] at h
    simp at h

theorem tripleFilter_noMatch_iff (cfg : Config) (db : DB)
    (probe : EnvFields) (label : String) (exact activeOnly : Bool)
    (views : List TripleView) :
    (tripleFilter cfg db probe label exact activeOnly views =
      .error .noMatch) ↔
    (probe.isEmpty = false ∧
      matchEnvIDs db.tabs.environments probe exact = []) := by
  unfold tripleFilter
  cases he : tripleEnvFilter db probe exact
      (if activeOnly then views.filter (·.isActive) else views) with
  | error e =>
    have he2 := tripleEnvFilter_error_eq db probe exact _ e he
    subst he2
    constructor
    · intro _
      exact (tripleEnvFilter_noMatch_iff db probe exact _).mp he
    · intro _
      rfl
  | ok vs =>
    constructor
    · intro h
      exact absurd h (tripleLabelFilter_no_noMatch cfg db label vs)
    · intro hr
      exfalso
      have := (tripleEnvFilter_noMatch_iff db probe exact
        (if activeOnly then views.filter (·.isActive) else views)).mpr hr
      rw [he] at this
      exact absurd this (by simp)

theorem getValueTriples_noMatch_iff (cfg : Config) (db : DB)
    (probe : EnvFields) (label : String) (exact activeOnly : Bool) :
    (getValueTriples cfg db probe label exact activeOnly =
      .error .noMatch) ↔
    (probe.isEmpty = false ∧
      matchEnvIDs db.tabs.environments probe exact = []) := by
  have hiff := tripleFilter_noMatch_iff cfg db probe label exact activeOnly
    (valueTripleViews db)
  unfold getValueTriples
  cases hf : tripleFilter cfg db probe label exact activeOnly
      (valueTripleViews db) with
  | error e =>
    rw [hf] at hiff
    rw [exbind_error]
    simp only [Except.error.injEq] at hiff ⊢
    exact hiff
  | ok vs =>
    rw [hf] at hiff
    rw [exbind_ok]
    constructor
    · intro h
      exact absurd h (by simp [pure, Except.pure])
    · intro hr
      exact absurd (hiff.mpr hr) (by simp)

theorem getKeyTriples_noMatch_iff (cfg : Config) (db : DB)
    (probe : EnvFields) (label : String) (exact activeOnly : Bool) :
    (getKeyTriples cfg db probe label exact activeOnly =
      .error .noMatch) ↔
    (probe.isEmpty = false ∧
      matchEnvIDs db.tabs.environments probe exact = []) := by
  have hiff := tripleFilter_noMatch_iff cfg db probe label exact activeOnly
    (keyTripleViews db)
  unfold getKeyTriples
  cases hf : tripleFilter cfg db probe label exact activeOnly
      (keyTripleViews db) with
  | error e =>
    rw [hf] at hiff
    rw [exbind_error]
    simp only [Except.error.injEq] at hiff ⊢
    exact hiff
  | ok vs =>
    rw [hf] at hiff
    rw [exbind_ok]
    constructor
    · intro h
      exact absurd h (by simp [pure, Except.pure])
    · intro hr
      exact absurd (hiff.mpr hr) (by simp)

/-- C3 counterexample: with a probe that does match an environment but
with no triple row referencing it, `GetValueTriples` returns the empty
list without error — not the `NoMatch` error the claim requires when no
triple row satisfies the filters. -/
theorem get_triples_empty_scan_returns_ok_empty :
    getValueTriples {} probeOnlyDB acmeEnv "" false false =
      .ok ([] : List ValueTripleM) ∧
    (.ok ([] : List ValueTripleM) : Except StoreErr (List ValueTripleM)) ≠
      .error .noMatch := ⟨by decide, by decide⟩

/-- C3 (amended): the triple-retrieval operations return `NoMatch`
exactly when the environment probe is non-empty and matches no
environment row (`FindEnvironmentIDs` came back empty); in every other
case — in particular when the filters select no triple row — they
return the (possibly empty) result list without a `NoMatch` error. -/
theorem get_triples_noMatch_only_on_env_miss (cfg : Config) (db : DB)
    (probe : EnvFields) (label : String) (exact activeOnly : Bool) :
    ((getValueTriples cfg db probe label exact activeOnly =
        .error .noMatch) ↔
      (probe.isEmpty = false ∧
        matchEnvIDs db.tabs.environments probe exact = [])) ∧
    ((getKeyTriples cfg db probe label exact activeOnly =
        .error .noMatch) ↔
      (probe.isEmpty = false ∧
        matchEnvIDs db.tabs.environments probe exact = [])) :=
  ⟨getValueTriples_noMatch_iff cfg db probe label exact activeOnly,
   getKeyTriples_noMatch_iff cfg db probe label exact activeOnly⟩

/-- Witness for C3's amended statement: a non-empty probe against the
empty store yields `NoMatch`. -/
theorem get_triples_noMatch_only_on_env_miss_witness :
    getValueTriples {} {} { vendor := some "nosuch" } "" false false =
      .error .noMatch :=
  ((get_triples_noMatch_only_on_env_miss {} {}
    { vendor := some "nosuch" } "" false false).1).mpr
    ⟨by decide, by decide⟩

end CorimStore
